import Mathlib

/-!
Verification of `src/project2/LocalValueNumbering.cpp` (UCR-CS201-Project).

The source file is an LLVM new-pass-manager plugin scaffold for a
"Local Value Numbering" function pass.  Its `visitor` function (the body
that would hold the algorithm) is an empty TODO stub, its `run` entry
point calls `visitor` and returns `PreservedAnalyses::all()`, its
`isRequired` returns `true`, and the registration glue exposes the pass
under the pipeline name "local-value-numbering".

We embed the pass over a small model of LLVM IR functions (a function is
a list of basic blocks; a block is a list of instructions carrying an
optional result register, an opcode and operands).  The pass functions
themselves are translated directly from the C++: in particular `visitor`
is the identity, because its body contains no code.
-/

namespace LVN

/-- Opcodes of the IR fragment needed to state the claims (binary
arithmetic, memory load/store, and a catch-all for anything else). -/
inductive Opcode where
  | add
  | mul
  | load
  | store
  | other (name : String)
deriving DecidableEq

/-- An operand: a reference to an earlier instruction's result register,
an external value (argument or value from outside the block), or a
constant. -/
inductive Operand where
  | reg (id : Nat)
  | ext (name : String)
  | cst (v : Int)
deriving DecidableEq

/-- An IR instruction: an optional result register (stores produce no
result), an opcode and an ordered operand list. -/
structure Instruction where
  result : Option Nat
  opcode : Opcode
  operands : List Operand
deriving DecidableEq

/-- A basic block: an ordered sequence of instructions. -/
structure BasicBlock where
  instrs : List Instruction
deriving DecidableEq

/-- An IR function: a name, its basic blocks, and whether it carries the
`optnone` ("do not optimize") attribute mentioned in the source comments
at lines 22-24. -/
structure Function where
  name : String
  blocks : List BasicBlock
  optnone : Bool
deriving DecidableEq

/-- The categories of preserved-analysis reports used by the source and
the spec: all analyses, no analyses, or only CFG-level analyses. -/
inductive PreservedAnalyses where
  | all
  | none
  | cfgAnalyses
deriving DecidableEq

/-- `visitor` (LocalValueNumbering.cpp lines 9-11): the body is only the
comment "TODO implement your algorithm here", so the function performs no
transformation at all. -/
def visitor (F : Function) : Function := F

/-- `LocalValueNumbering::run` (lines 17-20): calls `visitor(F)` and
returns `PreservedAnalyses::all()`.  We return the (un)transformed
function together with the preserved-analyses report. -/
def run (F : Function) : Function × PreservedAnalyses :=
  (visitor F, PreservedAnalyses.all)

/-- `LocalValueNumbering::isRequired` (line 25): returns `true`. -/
def isRequired : Bool := true

/-- Total number of instructions in a function. -/
def totalInstrs (F : Function) : Nat :=
  (F.blocks.map (fun b => b.instrs.length)).sum

/-- Number of instructions eliminated by one run of the pass. -/
def eliminatedCount (F : Function) : Nat :=
  totalInstrs F - totalInstrs (run F).fst

/-- Whether the report of a run says that no analyses are preserved
(`PreservedAnalyses::none()`). -/
def reportsNoAnalyses (F : Function) : Bool :=
  match (run F).snd with
  | PreservedAnalyses.none => true
  | _ => false

/-- The instruction at position `n` of a block, if any. -/
def instrAt (blk : BasicBlock) (n : Nat) : Option Instruction :=
  blk.instrs[n]?

/-- Whether some instruction of `F` defines result register `r`. -/
def definesReg (F : Function) (r : Nat) : Bool :=
  F.blocks.any (fun b => b.instrs.any (fun i => decide (i.result = some r)))

/-- The pattern of the commutative-folding claim: at positions
`i < j` the block computes `t1 = x + y` and `t2 = y + x`, and the
instructions after position `j` include a use of `t1` and a use of
`t2`. -/
def commPairUses (blk : BasicBlock) (i j t1 t2 : Nat)
    (x y : Operand) : Prop :=
  i < j ∧
  instrAt blk i = some (Instruction.mk (some t1) Opcode.add [x, y]) ∧
  instrAt blk j = some (Instruction.mk (some t2) Opcode.add [y, x]) ∧
  (blk.instrs.drop (j + 1)).any
    (fun u => u.operands.contains (Operand.reg t1)) = true ∧
  (blk.instrs.drop (j + 1)).any
    (fun u => u.operands.contains (Operand.reg t2)) = true

instance (blk : BasicBlock) (i j t1 t2 : Nat) (x y : Operand) :
    Decidable (commPairUses blk i j t1 t2 x y) := by
  unfold commPairUses
  infer_instance

/-- The pattern of the side-effect-isolation claim: `t1 = load p` at
position `i`, `store x, p` at position `j`, `t2 = load p` at position
`k`, with `i < j < k`. -/
def loadStoreLoad (blk : BasicBlock) (i j k t1 t2 : Nat)
    (p x : Operand) : Prop :=
  i < j ∧ j < k ∧
  instrAt blk i = some (Instruction.mk (some t1) Opcode.load [p]) ∧
  instrAt blk j = some (Instruction.mk Option.none Opcode.store [x, p]) ∧
  instrAt blk k = some (Instruction.mk (some t2) Opcode.load [p])

instance (blk : BasicBlock) (i j k t1 t2 : Nat) (p x : Operand) :
    Decidable (loadStoreLoad blk i j k t1 t2 p x) := by
  unfold loadStoreLoad
  infer_instance

/-! ## Semantics of blocks (for the refinement claim)

A state gives values to result registers, external values and memory
addresses.  `execBlock` runs a block's instructions in order. -/

/-- A machine state: register file, environment of external values, and
memory. -/
structure State where
  regs : Nat → Int
  ext : String → Int
  mem : Int → Int

/-- Value of an operand in a state. -/
def evalOperand (σ : State) : Operand → Int
  | Operand.reg r => σ.regs r
  | Operand.ext s => σ.ext s
  | Operand.cst v => v

/-- Write a value to an (optional) result register. -/
def setReg (σ : State) (r : Option Nat) (v : Int) : State :=
  match r with
  | some r =>
    { σ with regs := fun n => if n = r then v else σ.regs n }
  | Option.none => σ

/-- One step of execution: arithmetic writes the result register, load
reads memory, store writes memory, anything else is a no-op on this
fragment. -/
def execInstr (σ : State) (i : Instruction) : State :=
  match i.opcode, i.operands with
  | Opcode.add, [a, b] => setReg σ i.result (evalOperand σ a + evalOperand σ b)
  | Opcode.mul, [a, b] => setReg σ i.result (evalOperand σ a * evalOperand σ b)
  | Opcode.load, [p] => setReg σ i.result (σ.mem (evalOperand σ p))
  | Opcode.store, [x, p] =>
    { σ with mem := fun a => if a = evalOperand σ p then evalOperand σ x else σ.mem a }
  | _, _ => σ

/-- Execute a block from a state. -/
def execBlock (blk : BasicBlock) (σ : State) : State :=
  blk.instrs.foldl execInstr σ

/-- Modelled from the spec: the host pass manager skips a pass on a
function carrying the `optnone` attribute unless the pass declares
`isRequired`; the skipping logic itself lives in the host pipeline, not
in this repository.  Per the spec (section 4.4), a required pass "must
still execute (and must not be skipped) even on functions marked do not
optimize". -/
def skippedOn (F : Function) : Bool :=
  F.optnone && !isRequired

/-! ## Plugin registration glue -/

/-- A pass, as added to a function pass manager; the file defines only
the LocalValueNumbering pass. -/
inductive Pass where
  | localValueNumbering
deriving DecidableEq

/-- A function pass manager is modelled by the ordered list of passes
added to it. -/
abbrev FunctionPassManager : Type := List Pass

/-- A pass builder, modelled by the list of pipeline-parsing callbacks
registered on it. -/
structure PassBuilder where
  pipelineCallbacks :
    List (String → FunctionPassManager → FunctionPassManager × Bool)

/-- `PB.registerPipelineParsingCallback(...)`: append a callback. -/
def registerPipelineParsingCallback (PB : PassBuilder)
    (cb : String → FunctionPassManager → FunctionPassManager × Bool) :
    PassBuilder :=
  { pipelineCallbacks := PB.pipelineCallbacks ++ [cb] }

/-- The lambda registered at lines 36-43: if the pipeline element name is
"local-value-numbering", add the pass to the FPM and return true;
otherwise return false and add nothing. -/
def pipelineParsingCallback (Name : String) (FPM : FunctionPassManager) :
    FunctionPassManager × Bool :=
  if Name = "local-value-numbering" then
    (FPM ++ [Pass.localValueNumbering], true)
  else
    (FPM, false)

/-- `LLVM_PLUGIN_API_VERSION`: a numeric constant supplied by the host
LLVM headers; its concrete value is immaterial to the claims, which are
structural. -/
def LLVM_PLUGIN_API_VERSION : Nat := 1

/-- `LLVM_VERSION_STRING`: a string constant supplied by the host LLVM
headers. -/
def LLVM_VERSION_STRING : String := "host-llvm-version"

/-- `llvm::PassPluginLibraryInfo`: API version, plugin name, plugin
version, and the callback run on the PassBuilder at load time. -/
structure PassPluginLibraryInfo where
  APIVersion : Nat
  PluginName : String
  PluginVersion : String
  RegisterPassBuilderCallbacks : PassBuilder → PassBuilder

/-- `getLocalValueNumberingPluginInfo` (lines 32-45): the plugin record
with the API version, the name "LocalValueNumbering", the LLVM version
string, and a callback registering `pipelineParsingCallback`. -/
def getLocalValueNumberingPluginInfo : PassPluginLibraryInfo :=
  { APIVersion := LLVM_PLUGIN_API_VERSION
    PluginName := "LocalValueNumbering"
    PluginVersion := LLVM_VERSION_STRING
    RegisterPassBuilderCallbacks := fun PB =>
      registerPipelineParsingCallback PB pipelineParsingCallback }

/-- `llvmGetPassPluginInfo` (lines 50-53): returns
`getLocalValueNumberingPluginInfo()`. -/
def llvmGetPassPluginInfo : PassPluginLibraryInfo :=
  getLocalValueNumberingPluginInfo

/-! ## Concrete example functions used as counterexamples/witnesses -/

/-- A small example function with one block and one add instruction. -/
def exF : Function :=
  { name := "f"
    blocks := [BasicBlock.mk [Instruction.mk (some 0) Opcode.add
      [Operand.cst 1, Operand.cst 2]]]
    optnone := false }

/-- Block with the commutative pair `t1 = a + b; t2 = b + a` followed by
uses of both `t1` and `t2`. -/
def blkC2 : BasicBlock :=
  BasicBlock.mk
    [Instruction.mk (some 1) Opcode.add [Operand.ext "a", Operand.ext "b"],
     Instruction.mk (some 2) Opcode.add [Operand.ext "b", Operand.ext "a"],
     Instruction.mk (some 3) Opcode.mul [Operand.reg 1, Operand.cst 1],
     Instruction.mk (some 4) Opcode.mul [Operand.reg 2, Operand.cst 1]]

/-- Function containing `blkC2`. -/
def FC2 : Function :=
  { name := "g", blocks := [blkC2], optnone := false }

/-- Block with `t1 = load p; store x, p; t2 = load p`. -/
def blkC6 : BasicBlock :=
  BasicBlock.mk
    [Instruction.mk (some 1) Opcode.load [Operand.ext "p"],
     Instruction.mk Option.none Opcode.store [Operand.ext "x", Operand.ext "p"],
     Instruction.mk (some 2) Opcode.load [Operand.ext "p"]]

/-- Function containing `blkC6`. -/
def FC6 : Function :=
  { name := "h", blocks := [blkC6], optnone := false }

end LVN

open LVN

/-- Helper: an instruction found at some position of a block is a member
of the block's instruction list. -/
theorem mem_of_instrAt {blk : BasicBlock} {n : Nat} {i : Instruction}
    (h : instrAt blk n = some i) : i ∈ blk.instrs :=
  List.getElem?_mem h

/-- C1 counterexample: on the concrete function `exF`, the run entry
point reports `PreservedAnalyses::all()`, not that it preserves no
analyses. -/
theorem run_reports_none_counterexample :
    reportsNoAnalyses exF = false ∧ (run exF).snd = PreservedAnalyses.all :=
  ⟨rfl, rfl⟩

/-- C1 (amended): for every function, the run entry point reports that
it preserves ALL analyses (`return PreservedAnalyses::all()` at line
19). -/
theorem run_preserves_all_analyses :
    ∀ F : Function, (run F).snd = PreservedAnalyses.all :=
  fun _ => rfl

/-- C2 counterexample: the block `blkC2` holds `t1 = a + b; t2 = b + a`
followed by uses of both, yet running the pass leaves the containing
function `FC2` unchanged and register `t2` (here register 2) is still
defined afterwards — nothing is eliminated or redirected. -/
theorem commutative_pair_not_eliminated_counterexample :
    commPairUses blkC2 0 1 1 2 (Operand.ext "a") (Operand.ext "b") ∧
    (run FC2).fst = FC2 ∧
    definesReg (run FC2).fst 2 = true := by
  refine ⟨by decide, rfl, by decide⟩

/-- C2 (amended): for every function whose block holds the commutative
pair `t1 = x + y; t2 = y + x` followed by uses of both, running the pass
leaves the function unchanged and the instruction defining `t2` is still
present: the visitor body is an unimplemented TODO stub. -/
theorem commutative_pair_left_intact (F : Function) (blk : BasicBlock)
    (i j t1 t2 : Nat) (x y : Operand)
    (hb : blk ∈ F.blocks) (hp : commPairUses blk i j t1 t2 x y) :
    (run F).fst = F ∧ definesReg (run F).fst t2 = true := by
  refine ⟨rfl, ?_⟩
  have hj : Instruction.mk (some t2) Opcode.add [y, x] ∈ blk.instrs :=
    mem_of_instrAt hp.2.2.1
  simp only [definesReg, List.any_eq_true]
  exact ⟨blk, hb, Instruction.mk (some t2) Opcode.add [y, x], hj, by simp⟩

/-- C2 witness: the amended theorem instantiated on the concrete
function `FC2` and its block `blkC2`. -/
theorem commutative_pair_left_intact_witness :
    (blkC2 ∈ FC2.blocks ∧
      commPairUses blkC2 0 1 1 2 (Operand.ext "a") (Operand.ext "b")) ∧
    ((run FC2).fst = FC2 ∧ definesReg (run FC2).fst 2 = true) :=
  ⟨⟨by decide, by decide⟩,
    commutative_pair_left_intact FC2 blkC2 0 1 1 2
      (Operand.ext "a") (Operand.ext "b") (by decide) (by decide)⟩

/-- C3: for every function, the pass eliminates zero instructions and
reports that all analyses are preserved; hence both conditionals of the
claim hold (the at-least-one-elimination case never occurs). -/
theorem run_eliminates_nothing_reports_all :
    ∀ F : Function, eliminatedCount F = 0 ∧ (run F).snd = PreservedAnalyses.all :=
  fun F => ⟨Nat.sub_self (totalInstrs F), rfl⟩

/-- C4: the run entry point leaves every function entirely unchanged:
the visitor is the identity and run returns the function as given. -/
theorem run_leaves_function_unchanged :
    ∀ F : Function, visitor F = F ∧ (run F).fst = F :=
  fun _ => ⟨rfl, rfl⟩

/-- C5: every block of the transformed function computes the same
mapping from states to states as the corresponding original block (the
transformed function IS the original, so the semantics agree on every
instruction). -/
theorem transformed_blocks_semantically_equivalent :
    ∀ (F : Function) (n : Nat) (σ : State),
      Option.map (fun b => execBlock b σ) ((run F).fst.blocks[n]?) =
      Option.map (fun b => execBlock b σ) (F.blocks[n]?) :=
  fun _ _ _ => rfl

/-- C6: for every function whose block holds
`t1 = load p; store x, p; t2 = load p`, running the pass does not
eliminate the second load: the function is unchanged, the block is still
there, and `t2` is still defined. -/
theorem intervening_store_load_not_eliminated (F : Function) (blk : BasicBlock)
    (i j k t1 t2 : Nat) (p x : Operand)
    (hb : blk ∈ F.blocks) (hp : loadStoreLoad blk i j k t1 t2 p x) :
    (run F).fst = F ∧ blk ∈ (run F).fst.blocks ∧
      definesReg (run F).fst t2 = true := by
  refine ⟨rfl, hb, ?_⟩
  have hk : Instruction.mk (some t2) Opcode.load [p] ∈ blk.instrs :=
    mem_of_instrAt hp.2.2.2.2
  simp only [definesReg, List.any_eq_true]
  exact ⟨blk, hb, Instruction.mk (some t2) Opcode.load [p], hk, by simp⟩

/-- C6 witness: the theorem instantiated on the concrete function `FC6`
and its load/store/load block `blkC6`. -/
theorem intervening_store_load_not_eliminated_witness :
    (blkC6 ∈ FC6.blocks ∧
      loadStoreLoad blkC6 0 1 2 1 2 (Operand.ext "p") (Operand.ext "x")) ∧
    ((run FC6).fst = FC6 ∧ blkC6 ∈ (run FC6).fst.blocks ∧
      definesReg (run FC6).fst 2 = true) :=
  ⟨⟨by decide, by decide⟩,
    intervening_store_load_not_eliminated FC6 blkC6 0 1 2 1 2
      (Operand.ext "p") (Operand.ext "x") (by decide) (by decide)⟩

/-- C7: the pass is idempotent — applying run twice produces the same
function as applying it once. -/
theorem run_idempotent :
    ∀ F : Function, (run (run F).fst).fst = (run F).fst :=
  fun _ => rfl

/-- C8: `isRequired()` returns true, and therefore the host pass manager
never skips the pass, even on functions carrying the optnone
attribute. -/
theorem pass_is_required_never_skipped :
    isRequired = true ∧ ∀ F : Function, skippedOn F = false :=
  ⟨rfl, fun F => by simp [skippedOn, isRequired]⟩

/-- C9: the pipeline-parsing callback returns true exactly when the
element name is "local-value-numbering", and it appends the
LocalValueNumbering pass to the function pass manager in that case and
nothing otherwise. -/
theorem pipeline_callback_adds_iff_name_matches :
    ∀ (Name : String) (FPM : FunctionPassManager),
      ((pipelineParsingCallback Name FPM).snd = true ↔
        Name = "local-value-numbering") ∧
      (pipelineParsingCallback Name FPM).fst =
        FPM ++ (if Name = "local-value-numbering"
                then [Pass.localValueNumbering] else []) := by
  intro Name FPM
  by_cases h : Name = "local-value-numbering" <;>
    simp [pipelineParsingCallback, h]

/-- C10: the exported entry point returns exactly
`getLocalValueNumberingPluginInfo()`, whose API version is
LLVM_PLUGIN_API_VERSION and whose plugin name is
"LocalValueNumbering". -/
theorem plugin_info_exported :
    llvmGetPassPluginInfo = getLocalValueNumberingPluginInfo ∧
    llvmGetPassPluginInfo.APIVersion = LLVM_PLUGIN_API_VERSION ∧
    llvmGetPassPluginInfo.PluginName = "LocalValueNumbering" :=
  ⟨rfl, rfl, rfl⟩
